import Mathlib

/-!
Shallow embedding of the notebook reservation/evaluation core of the
`olrafa/backend` repository (prison-education notebook grading service).

Source files embedded:
* `src/services/database/mappers/notebooks.ts` — the mapping between the
  spreadsheet-shaped storage row (`Notebook` model) and the API entity
  (`NotebookEntity`), and the partial-update record built from an
  `EvaluateNotebookEntity`.
* `src/services/repositories/sequelize-notebooks-repository.ts` — the
  lifecycle repository: conditional atomic updates (claim, evaluate) and
  the list/count queries.
* the `NotebookAPI` controller (reserve / evaluate / list-accessible
  orchestration).

The persisted store is modelled as a list of rows; a Sequelize
`Model.update(values, {where})` is modelled as a map over the list that
rewrites exactly the rows matching the predicate and reports how many rows
matched, which is Sequelize's returned `affectedCount`.  Timestamps
(`new Date()`) are modelled as a `now : Nat` parameter threaded to the
operations.  Spreadsheet column names such as `'Carimbo de data/hora'`
are transliterated to legal Lean identifiers (`carimboDeDataHora`).
-/

/-- Storage row of the `volunteers` association as consumed by the mapper:
`nome` and `'e-mail'`. -/
structure VolunteerModel where
  nome : String
  email : String
deriving DecidableEq, Repr

/-- Storage row of the `pep` (class) association as consumed by the mapper:
only `directory` is read. -/
structure PepModel where
  directory : String
deriving DecidableEq, Repr

/-- The `Notebook` Sequelize model row: one persisted notebook, spreadsheet
column names transliterated.  `carimboDeDataHora` is the column
`'Carimbo de data/hora'` (the evaluation timestamp, `evaluatedAt`);
`datareserva` is the reservation timestamp (`reservedAt`); `idvol` is the
reserving volunteer (`reservedBy`).  The `volunteer`/`pep` associations are
carried on the row (they are loaded by the `include` clauses of the
queries). -/
structure Notebook where
  idcad : Nat
  idvol : Option Nat
  idpep : Option Nat
  nomeDoAluno : String
  numeroDeMatriculaDoAluno : String
  unidadePrisionalDoAluno : String
  tema1 : String
  tema2 : String
  tema3 : String
  tema4 : String
  tema5 : String
  tema6 : String
  tema7 : String
  tema8 : String
  tema9 : String
  tema10 : String
  conteudosRelevantes : String
  a1 : String
  a2 : String
  a3 : String
  a4 : String
  a5 : String
  a6 : String
  a7 : String
  a8 : String
  a9 : String
  a10 : String
  a11 : String
  a12 : String
  a13 : String
  conclusaoDoAvaliador : String
  exclusaoDeArquivosRecebidos : String
  carimboDeDataHora : Option Nat
  datareserva : Option Nat
  volunteer : Option VolunteerModel
  pep : Option PepModel
deriving DecidableEq, Repr

/-- The API-facing `NotebookEntity` produced by `notebookModelToEntity`. -/
structure NotebookEntity where
  idcad : Nat
  idvol : Option Nat
  idpep : Option Nat
  studentName : String
  studentRegistration : Nat
  studentPrisonUnit : String
  evaluatorName : String
  evaluatorEmail : Option String
  subject1 : String
  subject2 : String
  subject3 : String
  subject4 : String
  subject5 : String
  subject6 : String
  subject7 : String
  subject8 : String
  subject9 : String
  subject10 : String
  relevantContent : String
  a1 : String
  a2 : String
  a3 : String
  a4 : String
  a5 : String
  a6 : String
  a7 : String
  a8 : String
  a9 : String
  a10 : String
  a11 : String
  a12 : String
  a13 : String
  conclusion : String
  archivesExclusion : Bool
  evaluatedDate : Option Nat
  reservationDate : Option Nat
  notebookDirectory : Option String
deriving DecidableEq, Repr

/-- The evaluation payload `EvaluateNotebookEntity` submitted by a volunteer:
the evaluating volunteer's id plus the evaluation fields. -/
structure EvaluateNotebookEntity where
  idvol : Nat
  studentPrisonUnit : String
  subject1 : String
  subject2 : String
  subject3 : String
  subject4 : String
  subject5 : String
  subject6 : String
  subject7 : String
  subject8 : String
  subject9 : String
  subject10 : String
  relevantContent : String
  a1 : String
  a2 : String
  a3 : String
  a4 : String
  a5 : String
  a6 : String
  a7 : String
  a8 : String
  a9 : String
  a10 : String
  a11 : String
  a12 : String
  a13 : String
  conclusion : String
  archivesExclusion : Bool
deriving DecidableEq, Repr

/-- The partial-update record `EvaluateNotebookModel` (a subset of the
`Notebook` model's attributes): exactly the attributes listed by
`evaluateNotebookEntityToEvaluateNotebookModel`. -/
structure EvaluateNotebookModel where
  idvol : Option Nat
  unidadePrisionalDoAluno : String
  tema1 : String
  tema2 : String
  tema3 : String
  tema4 : String
  tema5 : String
  tema6 : String
  tema7 : String
  tema8 : String
  tema9 : String
  tema10 : String
  conteudosRelevantes : String
  a1 : String
  a2 : String
  a3 : String
  a4 : String
  a5 : String
  a6 : String
  a7 : String
  a8 : String
  a9 : String
  a10 : String
  a11 : String
  a12 : String
  a13 : String
  conclusaoDoAvaliador : String
  exclusaoDeArquivosRecebidos : String
  carimboDeDataHora : Option Nat
deriving DecidableEq, Repr

/-- Model of the JavaScript `Number(...)` coercion applied to the stored
registration string: parsed as a decimal number, defaulting to `0` (the
claims under verification never touch this field). -/
def toNumber (s : String) : Nat :=
  match s.toNat? with
  | some n => n
  | none => 0

/-- `notebookModelToEntity` from `src/services/database/mappers/notebooks.ts`:
field-by-field mapping of a storage row to the API entity.
`evaluatorName` is `notebook.volunteer?.nome ?? ''`, `evaluatorEmail` is
`notebook.volunteer?.['e-mail']`, `archivesExclusion` is
`notebook['exclusão de arquivos recebidos'] === 'SIM'`. -/
def notebookModelToEntity (notebook : Notebook) : NotebookEntity :=
  { idcad := notebook.idcad
    idvol := notebook.idvol
    idpep := notebook.idpep
    studentName := notebook.nomeDoAluno
    studentRegistration := toNumber notebook.numeroDeMatriculaDoAluno
    studentPrisonUnit := notebook.unidadePrisionalDoAluno
    evaluatorName :=
      match notebook.volunteer with
      | some v => v.nome
      | none => ""
    evaluatorEmail := notebook.volunteer.map VolunteerModel.email
    subject1 := notebook.tema1
    subject2 := notebook.tema2
    subject3 := notebook.tema3
    subject4 := notebook.tema4
    subject5 := notebook.tema5
    subject6 := notebook.tema6
    subject7 := notebook.tema7
    subject8 := notebook.tema8
    subject9 := notebook.tema9
    subject10 := notebook.tema10
    relevantContent := notebook.conteudosRelevantes
    a1 := notebook.a1
    a2 := notebook.a2
    a3 := notebook.a3
    a4 := notebook.a4
    a5 := notebook.a5
    a6 := notebook.a6
    a7 := notebook.a7
    a8 := notebook.a8
    a9 := notebook.a9
    a10 := notebook.a10
    a11 := notebook.a11
    a12 := notebook.a12
    a13 := notebook.a13
    conclusion := notebook.conclusaoDoAvaliador
    archivesExclusion := notebook.exclusaoDeArquivosRecebidos == "SIM"
    evaluatedDate := notebook.carimboDeDataHora
    reservationDate := notebook.datareserva
    notebookDirectory := notebook.pep.map PepModel.directory }

/-- `evaluateNotebookEntityToEvaluateNotebookModel` from the same mapper
file: builds the partial-update record from the evaluation payload.  It
includes `idvol` (the evaluating volunteer), writes the exclusion flag as
the string `'SIM'`/`'NÃO'`, and stamps `'Carimbo de data/hora': new Date()`
(the `now` parameter here). -/
def evaluateNotebookEntityToEvaluateNotebookModel
    (notebook : EvaluateNotebookEntity) (now : Nat) : EvaluateNotebookModel :=
  { idvol := some notebook.idvol
    unidadePrisionalDoAluno := notebook.studentPrisonUnit
    tema1 := notebook.subject1
    tema2 := notebook.subject2
    tema3 := notebook.subject3
    tema4 := notebook.subject4
    tema5 := notebook.subject5
    tema6 := notebook.subject6
    tema7 := notebook.subject7
    tema8 := notebook.subject8
    tema9 := notebook.subject9
    tema10 := notebook.subject10
    conteudosRelevantes := notebook.relevantContent
    a1 := notebook.a1
    a2 := notebook.a2
    a3 := notebook.a3
    a4 := notebook.a4
    a5 := notebook.a5
    a6 := notebook.a6
    a7 := notebook.a7
    a8 := notebook.a8
    a9 := notebook.a9
    a10 := notebook.a10
    a11 := notebook.a11
    a12 := notebook.a12
    a13 := notebook.a13
    conclusaoDoAvaliador := notebook.conclusion
    exclusaoDeArquivosRecebidos :=
      if notebook.archivesExclusion then "SIM" else "NÃO"
    carimboDeDataHora := some now }

/-- Applying the partial-update record to a row: Sequelize's
`Notebook.update(values, ...)` sets exactly the attributes listed in
`values` and leaves every other column unchanged. -/
def applyEvaluateNotebookModel (m : EvaluateNotebookModel) (r : Notebook) :
    Notebook :=
  { r with
    idvol := m.idvol
    unidadePrisionalDoAluno := m.unidadePrisionalDoAluno
    tema1 := m.tema1
    tema2 := m.tema2
    tema3 := m.tema3
    tema4 := m.tema4
    tema5 := m.tema5
    tema6 := m.tema6
    tema7 := m.tema7
    tema8 := m.tema8
    tema9 := m.tema9
    tema10 := m.tema10
    conteudosRelevantes := m.conteudosRelevantes
    a1 := m.a1
    a2 := m.a2
    a3 := m.a3
    a4 := m.a4
    a5 := m.a5
    a6 := m.a6
    a7 := m.a7
    a8 := m.a8
    a9 := m.a9
    a10 := m.a10
    a11 := m.a11
    a12 := m.a12
    a13 := m.a13
    conclusaoDoAvaliador := m.conclusaoDoAvaliador
    exclusaoDeArquivosRecebidos := m.exclusaoDeArquivosRecebidos
    carimboDeDataHora := m.carimboDeDataHora }

/-- The persisted row set: the single shared mutable resource. -/
abbrev Store := List Notebook

/-- Model of Sequelize `Notebook.update(values, {where})`: rewrites every
row matching the predicate with `f` and returns the new row set together
with the affected-row count (the `[affectedCount]` result), with no window
between evaluating the predicate and applying the change. -/
def notebookUpdate (f : Notebook → Notebook) (p : Notebook → Bool)
    (s : Store) : Store × Nat :=
  (s.map fun r => if p r then f r else r, (s.filter p).length)

namespace SequelizeNotebookRepository

/-- `getNotebookById` from
`src/services/repositories/sequelize-notebooks-repository.ts`:
`Notebook.findOne({where: {idcad: notebookId}})` (with the volunteer and
pep associations included), mapped through `notebookModelToEntity`;
`null` when no row matches. -/
def getNotebookById (notebookId : Nat) (s : Store) : Option NotebookEntity :=
  (s.find? fun r => r.idcad == notebookId).map notebookModelToEntity

/-- Where-clause of `saveNotebookEvaluation`:
`{idcad: notebookId, 'Carimbo de data/hora': null}`. -/
def evaluationWhere (notebookId : Nat) (r : Notebook) : Bool :=
  r.idcad == notebookId && r.carimboDeDataHora == none

/-- `saveNotebookEvaluation` from the repository: one conditional update
writing `evaluateNotebookEntityToEvaluateNotebookModel(notebookData)` to
the rows matching `{idcad: notebookId, 'Carimbo de data/hora': null}`;
returns the refreshed notebook when `numUpdates` is non-zero and `null`
otherwise.  The result pairs the post-update store with the returned
value. -/
def saveNotebookEvaluation (notebookId : Nat)
    (notebookData : EvaluateNotebookEntity) (now : Nat) (s : Store) :
    Store × Option NotebookEntity :=
  let upd := notebookUpdate
    (applyEvaluateNotebookModel
      (evaluateNotebookEntityToEvaluateNotebookModel notebookData now))
    (evaluationWhere notebookId) s
  (upd.1, if upd.2 ≠ 0 then getNotebookById notebookId upd.1 else none)

/-- Where-clause of `reserveNotebookForVolunteer`:
`{idcad: notebookId, datareserva: null, 'Carimbo de data/hora': null}`. -/
def reservationWhere (notebookId : Nat) (r : Notebook) : Bool :=
  r.idcad == notebookId && r.datareserva == none &&
    r.carimboDeDataHora == none

/-- `reserveNotebookForVolunteer` from the repository: one conditional
update setting `{idvol, datareserva: new Date()}` on the rows matching
`{idcad: notebookId, datareserva: null, 'Carimbo de data/hora': null}`;
returns the refreshed notebook when the update affected a row, `null`
otherwise. -/
def reserveNotebookForVolunteer (idvol : Nat) (notebookId : Nat) (now : Nat)
    (s : Store) : Store × Option NotebookEntity :=
  let upd := notebookUpdate
    (fun r => { r with idvol := some idvol, datareserva := some now })
    (reservationWhere notebookId) s
  (upd.1, if upd.2 ≠ 0 then getNotebookById notebookId upd.1 else none)

/-- `getReservedNotebooksByIdVol` from the repository:
`Notebook.findAll({where: {idvol, 'Carimbo de data/hora': null,
datareserva: null}})` mapped through `notebookModelToEntity`.  Note that
the where-clause requires `datareserva` to be null. -/
def getReservedNotebooksByIdVol (idvol : Nat) (s : Store) :
    List NotebookEntity :=
  (s.filter fun r =>
      r.idvol == some idvol && r.carimboDeDataHora == none &&
        r.datareserva == none).map
    notebookModelToEntity

/-- `getAvailableNotebooks` from the repository:
`Notebook.findAll({where: {datareserva: {[Op.is]: null},
'Carimbo de data/hora': {[Op.is]: null}}})` mapped through
`notebookModelToEntity`. -/
def getAvailableNotebooks (s : Store) : List NotebookEntity :=
  (s.filter fun r =>
      r.datareserva == none && r.carimboDeDataHora == none).map
    notebookModelToEntity

/-- `countEvaluatedNotebooksByIdVol` from the repository:
`Notebook.count({where: {idvol, 'Carimbo de data/hora': {[Op.ne]: null}}})`. -/
def countEvaluatedNotebooksByIdVol (idvol : Nat) (s : Store) : Nat :=
  (s.filter fun r =>
      r.idvol == some idvol && r.carimboDeDataHora != none).length

end SequelizeNotebookRepository

/-- Modelled from the spec: the presentation mapper
`formatAvailableNotebookToTableRow` (helper `format-available-notebook`,
absent from the available sources).  Spec §2.4 describes the Presentation
Mapper as an external collaborator that only converts internal entities to
the client-facing shape; it is modelled as the identity conversion on the
entity. -/
def formatAvailableNotebookToTableRow (notebook : NotebookEntity) :
    NotebookEntity :=
  notebook

/-- Modelled from the spec: `getVolunteerById` of the volunteer repository
(its Sequelize implementation is absent from the available sources; spec
§6 describes it as "Volunteer existence/lookup by id (boolean/entity or
not-found)").  The volunteers table is modelled as the list of existing
volunteer ids, and the lookup returns the id when present, `null`
otherwise. -/
def getVolunteerById (idvol : Nat) (volunteers : List Nat) : Option Nat :=
  if volunteers.contains idvol then some idvol else none

/-- Outcome of the `NotebookAPI.reserveNotebookForVolunteer` controller:
the three `ApiError` responses (412 volunteer not found, 404 notebook not
found, 400 already reserved or evaluated) and the success value. -/
inductive ReserveOutcome where
  | volunteerNotFound
  | notebookNotFound
  | alreadyReservedOrEvaluated
  | ok (notebook : NotebookEntity)
deriving DecidableEq, Repr

/-- Outcome of the `NotebookAPI.saveNotebookEvaluation` controller:
404 notebook not found, 400 already evaluated, or the evaluated
notebook. -/
inductive EvaluateOutcome where
  | notebookNotFound
  | alreadyEvaluated
  | ok (notebook : NotebookEntity)
deriving DecidableEq, Repr

namespace NotebookAPI

open SequelizeNotebookRepository

/-- `NotebookAPI.reserveNotebookForVolunteer`: checks the volunteer exists
(412 `VOLUNTEER_NOT_FOUND` otherwise), then that the notebook exists
(404 `NOTEBOOK_NOT_FOUND`), then delegates to the repository's conditional
update; a `null` repository result surfaces as the 400
`NOTEBOOK_ALREADY_RESERVED_ERROR` ("Notebook already reserved or already
evaluated"), and a non-null result is returned through
`formatAvailableNotebookToTableRow`. -/
def reserveNotebookForVolunteer (idvol : Nat) (notebookId : Nat) (now : Nat)
    (volunteers : List Nat) (s : Store) : Store × ReserveOutcome :=
  match getVolunteerById idvol volunteers with
  | none => (s, ReserveOutcome.volunteerNotFound)
  | some _ =>
    match getNotebookById notebookId s with
    | none => (s, ReserveOutcome.notebookNotFound)
    | some _ =>
      let res := SequelizeNotebookRepository.reserveNotebookForVolunteer
        idvol notebookId now s
      match res.2 with
      | none => (res.1, ReserveOutcome.alreadyReservedOrEvaluated)
      | some reservedNotebook =>
        (res.1, ReserveOutcome.ok
          (formatAvailableNotebookToTableRow reservedNotebook))

/-- `NotebookAPI.saveNotebookEvaluation`: checks the notebook exists
(404 `NOTEBOOK_NOT_FOUND` otherwise), then delegates to the repository's
conditional update; a `null` repository result surfaces as the 400
`NOTEBOOK_ALREADY_EVALUATED_ERROR`. -/
def saveNotebookEvaluation (notebookId : Nat)
    (notebookData : EvaluateNotebookEntity) (now : Nat) (s : Store) :
    Store × EvaluateOutcome :=
  match getNotebookById notebookId s with
  | none => (s, EvaluateOutcome.notebookNotFound)
  | some _ =>
    let res := SequelizeNotebookRepository.saveNotebookEvaluation
      notebookId notebookData now s
    match res.2 with
    | none => (res.1, EvaluateOutcome.alreadyEvaluated)
    | some evaluatedNotebook => (res.1, EvaluateOutcome.ok evaluatedNotebook)

/-- `NotebookAPI.getAvailableNotebooksForEvalForIdVol`: fetches the
available notebooks and the volunteer's reserved notebooks, concatenates
them (reserved first), and formats each row. -/
def getAvailableNotebooksForEvalForIdVol (idvol : Nat) (s : Store) :
    List NotebookEntity :=
  (getReservedNotebooksByIdVol idvol s ++ getAvailableNotebooks s).map
    formatAvailableNotebookToTableRow

end NotebookAPI

/-- One operation of the lifecycle core on the shared store: a claim
(`reserveNotebookForVolunteer`) or an evaluation
(`saveNotebookEvaluation`). -/
inductive Op where
  | reserve (idvol notebookId now : Nat)
  | evaluate (notebookId : Nat) (d : EvaluateNotebookEntity) (now : Nat)

/-- Effect of one operation on the store. -/
def applyOp (o : Op) (s : Store) : Store :=
  match o with
  | Op.reserve idvol notebookId now =>
    (SequelizeNotebookRepository.reserveNotebookForVolunteer
      idvol notebookId now s).1
  | Op.evaluate notebookId d now =>
    (SequelizeNotebookRepository.saveNotebookEvaluation
      notebookId d now s).1

/-- Effect of a sequence of claim/evaluate operations on the store. -/
def runOps (ops : List Op) (s : Store) : Store :=
  match ops with
  | [] => s
  | o :: os => runOps os (applyOp o s)

section CondUpdateLemmas

variable {f : Notebook → Notebook} {p : Notebook → Bool}

/-- The affected-row count of a conditional update is non-zero exactly when
some row of the store matches the where-clause. -/
lemma notebookUpdate_count_ne_zero_iff (f p) (s : Store) :
    (notebookUpdate f p s).2 ≠ 0 ↔ ∃ r ∈ s, p r = true := by
  simp only [notebookUpdate, ne_eq, List.length_eq_zero,
    List.filter_eq_nil_iff, not_forall]
  constructor
  · rintro ⟨x, hx, hpx⟩
    exact ⟨x, hx, by simpa using hpx⟩
  · rintro ⟨x, hx, hpx⟩
    exact ⟨x, by simpa [hpx] using hx⟩

/-- A conditional update whose where-clause matches no row leaves the store
unchanged. -/
lemma notebookUpdate_fst_of_no_match {s : Store}
    (h : ∀ r ∈ s, p r = false) : (notebookUpdate f p s).1 = s := by
  simp only [notebookUpdate]
  have hid : ∀ x ∈ s, (if p x then f x else x) = id x := by
    intro x hx
    simp [h x hx]
  rw [List.map_congr_left hid, List.map_id]

/-- A conditional update whose where-clause matches no row reports zero
affected rows. -/
lemma notebookUpdate_count_of_no_match {s : Store}
    (h : ∀ r ∈ s, p r = false) : (notebookUpdate f p s).2 = 0 := by
  simp only [notebookUpdate, List.length_eq_zero, List.filter_eq_nil_iff]
  intro a ha
  simp [h a ha]

/-- When row ids are unique and the where-clause pins the id, a conditional
update rewrites exactly the matching row and leaves every other row as it
was. -/
lemma notebookUpdate_fst_eq_replace {s : Store} {r : Notebook}
    (hnd : (s.map Notebook.idcad).Nodup) (hr : r ∈ s) (hpr : p r = true)
    (hpid : ∀ x, p x = true → x.idcad = r.idcad) :
    (notebookUpdate f p s).1 = s.map fun x => if x = r then f r else x := by
  simp only [notebookUpdate]
  apply List.map_congr_left
  intro x hx
  by_cases hpx : p x = true
  · have hxr : x = r := List.inj_on_of_nodup_map hnd hx hr (hpid x hpx)
    subst hxr
    simp [hpx]
  · have hxr : x ≠ r := by
      rintro rfl
      exact hpx hpr
    simp [hpx, hxr]

/-- When a row matched the where-clause, looking the notebook id up in the
post-update store succeeds (the updated row still carries the id). -/
lemma find?_notebookUpdate_ne_none {s : Store} {r : Notebook} {nid : Nat}
    (hfid : ∀ x, (f x).idcad = x.idcad)
    (hpid : ∀ x, p x = true → x.idcad = nid)
    (hr : r ∈ s) (hpr : p r = true) :
    ((notebookUpdate f p s).1.find? fun x => x.idcad == nid) ≠ none := by
  have hmem : f r ∈ (notebookUpdate f p s).1 := by
    simp only [notebookUpdate]
    exact List.mem_map.mpr ⟨r, hr, by simp [hpr]⟩
  have hsome : ((notebookUpdate f p s).1.find? fun x => x.idcad == nid).isSome :=
    List.find?_isSome.mpr ⟨f r, hmem, by simp [hfid, hpid r hpr]⟩
  intro hnone
  rw [hnone] at hsome
  exact Bool.noConfusion hsome

/-- When row ids are unique, the row found in the post-update store under
the pinned id is exactly the rewritten matching row. -/
lemma find?_notebookUpdate_eq {nid : Nat} {r : Notebook}
    (hfid : ∀ x, (f x).idcad = x.idcad)
    (hpid : ∀ x, p x = true → x.idcad = nid) :
    ∀ (s : Store), (s.map Notebook.idcad).Nodup → r ∈ s → p r = true →
      ((notebookUpdate f p s).1.find? fun x => x.idcad == nid) = some (f r) := by
  intro s
  induction s with
  | nil =>
    intro _ hr
    cases hr
  | cons a t ih =>
    intro hnd hr hpr
    simp only [notebookUpdate, List.map_cons] at *
    have hnd' := List.nodup_cons.mp hnd
    rcases List.mem_cons.mp hr with rfl | hrt
    · rw [if_pos hpr]
      apply List.find?_cons_of_pos
      simp [hfid, hpid r hpr]
    · have hanid : a.idcad ≠ nid := by
        intro heq
        apply hnd'.1
        have : r.idcad ∈ t.map Notebook.idcad :=
          List.mem_map_of_mem Notebook.idcad hrt
        rwa [hpid r hpr, ← heq] at this
      have hpa : p a = false := by
        by_cases h : p a = true
        · exact absurd (hpid a h) hanid
        · simpa using h
      have hstep : (if p a then f a else a) = a := by simp [hpa]
      rw [hstep, List.find?_cons_of_neg]
      · exact ih hnd'.2 hrt hpr
      · simp [hanid]

end CondUpdateLemmas

/-- Propositional reading of the reservation where-clause. -/
lemma reservationWhere_iff (nid : Nat) (r : Notebook) :
    SequelizeNotebookRepository.reservationWhere nid r = true ↔
      r.idcad = nid ∧ r.datareserva = none ∧ r.carimboDeDataHora = none := by
  simp [SequelizeNotebookRepository.reservationWhere, and_assoc]

/-- Propositional reading of the evaluation where-clause. -/
lemma evaluationWhere_iff (nid : Nat) (r : Notebook) :
    SequelizeNotebookRepository.evaluationWhere nid r = true ↔
      r.idcad = nid ∧ r.carimboDeDataHora = none := by
  simp [SequelizeNotebookRepository.evaluationWhere]

/-- The conditional-update-then-refresh pattern shared by
`saveNotebookEvaluation` and `reserveNotebookForVolunteer`: run the
conditional update, then return the refreshed notebook when a row was
affected and `null` otherwise.  Both repository operations are
definitionally of this form. -/
def condRepoResult (f : Notebook → Notebook) (p : Notebook → Bool)
    (nid : Nat) (s : Store) : Store × Option NotebookEntity :=
  ((notebookUpdate f p s).1,
    if (notebookUpdate f p s).2 ≠ 0 then
      SequelizeNotebookRepository.getNotebookById nid (notebookUpdate f p s).1
    else none)

section CondRepoLemmas

variable {f : Notebook → Notebook} {p : Notebook → Bool} {nid : Nat}

/-- The pattern returns a non-null notebook exactly when some row matched
the where-clause. -/
lemma condRepoResult_snd_ne_none_iff
    (hfid : ∀ x, (f x).idcad = x.idcad)
    (hpid : ∀ x, p x = true → x.idcad = nid) (s : Store) :
    (condRepoResult f p nid s).2 ≠ none ↔ ∃ r ∈ s, p r = true := by
  constructor
  · intro h
    by_contra hex
    have hall : ∀ r ∈ s, p r = false := by
      intro r hrs
      by_cases hp : p r = true
      · exact absurd ⟨r, hrs, hp⟩ hex
      · simpa using hp
    have h0 := notebookUpdate_count_of_no_match (f := f) hall
    simp [condRepoResult, h0] at h
  · rintro ⟨r, hrs, hpr⟩
    have hcount : (notebookUpdate f p s).2 ≠ 0 :=
      (notebookUpdate_count_ne_zero_iff f p s).mpr ⟨r, hrs, hpr⟩
    have hfind := find?_notebookUpdate_ne_none hfid hpid hrs hpr
    simp only [condRepoResult, if_pos hcount,
      SequelizeNotebookRepository.getNotebookById, ne_eq]
    intro hmap
    exact hfind (Option.map_eq_none'.mp hmap)

/-- When no row matches the where-clause, the pattern changes nothing and
returns `null`. -/
lemma condRepoResult_no_match {s : Store}
    (h : ∀ r ∈ s, p r = false) : condRepoResult f p nid s = (s, none) := by
  have h1 := notebookUpdate_fst_of_no_match (f := f) h
  have h2 := notebookUpdate_count_of_no_match (f := f) h
  simp [condRepoResult, h1, h2]

/-- When row ids are unique and a row matches the where-clause, the pattern
rewrites exactly that row and returns it refreshed. -/
lemma condRepoResult_success {s : Store} {r : Notebook}
    (hfid : ∀ x, (f x).idcad = x.idcad)
    (hpid : ∀ x, p x = true → x.idcad = nid)
    (hnd : (s.map Notebook.idcad).Nodup) (hr : r ∈ s) (hpr : p r = true) :
    condRepoResult f p nid s =
      (s.map fun x => if x = r then f r else x,
        some (notebookModelToEntity (f r))) := by
  have hcount : (notebookUpdate f p s).2 ≠ 0 :=
    (notebookUpdate_count_ne_zero_iff f p s).mpr ⟨r, hr, hpr⟩
  have hrep := notebookUpdate_fst_eq_replace (f := f) hnd hr hpr
    (fun x hx => (hpid x hx).trans (hpid r hpr).symm)
  have hfind := find?_notebookUpdate_eq hfid hpid s hnd hr hpr
  simp only [condRepoResult, if_pos hcount,
    SequelizeNotebookRepository.getNotebookById]
  rw [hfind, hrep]
  rfl

end CondRepoLemmas

/-- Row builder for concrete test states: lifecycle fields as given,
content fields blank, no associations loaded. -/
def mkNotebook (idcad : Nat) (idvol : Option Nat)
    (datareserva carimboDeDataHora : Option Nat) : Notebook :=
  { idcad := idcad
    idvol := idvol
    idpep := none
    nomeDoAluno := ""
    numeroDeMatriculaDoAluno := ""
    unidadePrisionalDoAluno := ""
    tema1 := ""
    tema2 := ""
    tema3 := ""
    tema4 := ""
    tema5 := ""
    tema6 := ""
    tema7 := ""
    tema8 := ""
    tema9 := ""
    tema10 := ""
    conteudosRelevantes := ""
    a1 := ""
    a2 := ""
    a3 := ""
    a4 := ""
    a5 := ""
    a6 := ""
    a7 := ""
    a8 := ""
    a9 := ""
    a10 := ""
    a11 := ""
    a12 := ""
    a13 := ""
    conclusaoDoAvaliador := ""
    exclusaoDeArquivosRecebidos := "NÃO"
    carimboDeDataHora := carimboDeDataHora
    datareserva := datareserva
    volunteer := none
    pep := none }

/-- Evaluation payload builder for concrete test inputs: the given
volunteer id, blank evaluation text, exclusion flag false. -/
def mkEval (idvol : Nat) : EvaluateNotebookEntity :=
  { idvol := idvol
    studentPrisonUnit := ""
    subject1 := ""
    subject2 := ""
    subject3 := ""
    subject4 := ""
    subject5 := ""
    subject6 := ""
    subject7 := ""
    subject8 := ""
    subject9 := ""
    subject10 := ""
    relevantContent := ""
    a1 := ""
    a2 := ""
    a3 := ""
    a4 := ""
    a5 := ""
    a6 := ""
    a7 := ""
    a8 := ""
    a9 := ""
    a10 := ""
    a11 := ""
    a12 := ""
    a13 := ""
    conclusion := ""
    archivesExclusion := false }

/-- C1: `reserveNotebookForVolunteer` succeeds exactly when a row with the
given `notebookId` exists whose `datareserva` (reservedAt) and
`'Carimbo de data/hora'` (evaluatedAt) are both null; on success (row ids
unique) it rewrites exactly that row, setting only `idvol := volunteerId`
and `datareserva := now`, and returns the refreshed notebook; when zero
rows match it returns Rejected (`null`) and changes no row. -/
theorem reserve_claim_conditional_update (idvol nid now : Nat) (s : Store) :
    (((SequelizeNotebookRepository.reserveNotebookForVolunteer
          idvol nid now s).2 ≠ none) ↔
        ∃ r ∈ s, r.idcad = nid ∧ r.datareserva = none ∧
          r.carimboDeDataHora = none) ∧
      ((∀ r ∈ s, ¬(r.idcad = nid ∧ r.datareserva = none ∧
            r.carimboDeDataHora = none)) →
        SequelizeNotebookRepository.reserveNotebookForVolunteer
          idvol nid now s = (s, none)) ∧
      ((s.map Notebook.idcad).Nodup →
        ∀ r ∈ s, r.idcad = nid → r.datareserva = none →
          r.carimboDeDataHora = none →
          SequelizeNotebookRepository.reserveNotebookForVolunteer
              idvol nid now s =
            (s.map fun x =>
                if x = r then
                  { r with idvol := some idvol, datareserva := some now }
                else x,
              some (notebookModelToEntity
                { r with idvol := some idvol, datareserva := some now }))) := by
  have hdef :
      SequelizeNotebookRepository.reserveNotebookForVolunteer idvol nid now s =
        condRepoResult
          (fun r => { r with idvol := some idvol, datareserva := some now })
          (SequelizeNotebookRepository.reservationWhere nid) nid s := rfl
  have hfid : ∀ x : Notebook,
      (({ x with idvol := some idvol, datareserva := some now } :
        Notebook)).idcad = x.idcad := fun x => rfl
  have hpid : ∀ x : Notebook,
      SequelizeNotebookRepository.reservationWhere nid x = true →
        x.idcad = nid :=
    fun x hx => ((reservationWhere_iff nid x).mp hx).1
  refine ⟨?_, ?_, ?_⟩
  · rw [hdef, condRepoResult_snd_ne_none_iff hfid hpid s]
    constructor
    · rintro ⟨r, hrs, hpr⟩
      exact ⟨r, hrs, (reservationWhere_iff nid r).mp hpr⟩
    · rintro ⟨r, hrs, hP⟩
      exact ⟨r, hrs, (reservationWhere_iff nid r).mpr hP⟩
  · intro hno
    rw [hdef]
    apply condRepoResult_no_match
    intro r hrs
    by_cases hp : SequelizeNotebookRepository.reservationWhere nid r = true
    · exact absurd ((reservationWhere_iff nid r).mp hp) (hno r hrs)
    · simpa using hp
  · intro hnd r hrs h1 h2 h3
    rw [hdef]
    exact condRepoResult_success hfid hpid hnd hrs
      ((reservationWhere_iff nid r).mpr ⟨h1, h2, h3⟩)

/-- Witness for C1: in a one-row store holding the available notebook 1,
reserving it for volunteer 7 at time 5 updates exactly that row and
returns it refreshed. -/
theorem reserve_claim_conditional_update_witness :
    SequelizeNotebookRepository.reserveNotebookForVolunteer 7 1 5
        [mkNotebook 1 none none none] =
      ([{ mkNotebook 1 none none none with
            idvol := some 7, datareserva := some 5 }],
        some (notebookModelToEntity
          { mkNotebook 1 none none none with
              idvol := some 7, datareserva := some 5 })) := by
  have h := (reserve_claim_conditional_update 7 1 5
      [mkNotebook 1 none none none]).2.2
    (by decide) (mkNotebook 1 none none none) (by simp) rfl rfl rfl
  simpa using h

/-- C2: `saveNotebookEvaluation` succeeds exactly when a row with the given
`notebookId` exists whose `'Carimbo de data/hora'` (evaluatedAt) is null;
on success (row ids unique) it rewrites exactly that row with the
evaluation fields plus `'Carimbo de data/hora' := now` and returns the
refreshed notebook (the update stamps the evaluation time, records the
payload's volunteer and conclusion, and leaves the row's identity, student
data and `datareserva` untouched); when zero rows match it returns
Rejected (`null`) and changes no row. -/
theorem evaluate_claim_conditional_update (nid now : Nat)
    (d : EvaluateNotebookEntity) (s : Store) :
    (((SequelizeNotebookRepository.saveNotebookEvaluation nid d now s).2 ≠
          none) ↔
        ∃ r ∈ s, r.idcad = nid ∧ r.carimboDeDataHora = none) ∧
      ((∀ r ∈ s, ¬(r.idcad = nid ∧ r.carimboDeDataHora = none)) →
        SequelizeNotebookRepository.saveNotebookEvaluation nid d now s =
          (s, none)) ∧
      ((s.map Notebook.idcad).Nodup →
        ∀ r ∈ s, r.idcad = nid → r.carimboDeDataHora = none →
          SequelizeNotebookRepository.saveNotebookEvaluation nid d now s =
            (s.map fun x =>
                if x = r then
                  applyEvaluateNotebookModel
                    (evaluateNotebookEntityToEvaluateNotebookModel d now) r
                else x,
              some (notebookModelToEntity
                (applyEvaluateNotebookModel
                  (evaluateNotebookEntityToEvaluateNotebookModel d now)
                  r)))) ∧
      (∀ r : Notebook,
        (applyEvaluateNotebookModel
            (evaluateNotebookEntityToEvaluateNotebookModel d now)
            r).carimboDeDataHora = some now ∧
        (applyEvaluateNotebookModel
            (evaluateNotebookEntityToEvaluateNotebookModel d now)
            r).idvol = some d.idvol ∧
        (applyEvaluateNotebookModel
            (evaluateNotebookEntityToEvaluateNotebookModel d now)
            r).conclusaoDoAvaliador = d.conclusion ∧
        (applyEvaluateNotebookModel
            (evaluateNotebookEntityToEvaluateNotebookModel d now)
            r).datareserva = r.datareserva ∧
        (applyEvaluateNotebookModel
            (evaluateNotebookEntityToEvaluateNotebookModel d now)
            r).idcad = r.idcad ∧
        (applyEvaluateNotebookModel
            (evaluateNotebookEntityToEvaluateNotebookModel d now)
            r).nomeDoAluno = r.nomeDoAluno ∧
        (applyEvaluateNotebookModel
            (evaluateNotebookEntityToEvaluateNotebookModel d now)
            r).numeroDeMatriculaDoAluno = r.numeroDeMatriculaDoAluno) := by
  have hdef :
      SequelizeNotebookRepository.saveNotebookEvaluation nid d now s =
        condRepoResult
          (applyEvaluateNotebookModel
            (evaluateNotebookEntityToEvaluateNotebookModel d now))
          (SequelizeNotebookRepository.evaluationWhere nid) nid s := rfl
  have hfid : ∀ x : Notebook,
      (applyEvaluateNotebookModel
        (evaluateNotebookEntityToEvaluateNotebookModel d now) x).idcad =
        x.idcad := fun x => rfl
  have hpid : ∀ x : Notebook,
      SequelizeNotebookRepository.evaluationWhere nid x = true →
        x.idcad = nid :=
    fun x hx => ((evaluationWhere_iff nid x).mp hx).1
  refine ⟨?_, ?_, ?_, ?_⟩
  · rw [hdef, condRepoResult_snd_ne_none_iff hfid hpid s]
    constructor
    · rintro ⟨r, hrs, hpr⟩
      exact ⟨r, hrs, (evaluationWhere_iff nid r).mp hpr⟩
    · rintro ⟨r, hrs, hP⟩
      exact ⟨r, hrs, (evaluationWhere_iff nid r).mpr hP⟩
  · intro hno
    rw [hdef]
    apply condRepoResult_no_match
    intro r hrs
    by_cases hp : SequelizeNotebookRepository.evaluationWhere nid r = true
    · exact absurd ((evaluationWhere_iff nid r).mp hp) (hno r hrs)
    · simpa using hp
  · intro hnd r hrs h1 h2
    rw [hdef]
    exact condRepoResult_success hfid hpid hnd hrs
      ((evaluationWhere_iff nid r).mpr ⟨h1, h2⟩)
  · intro r
    exact ⟨rfl, rfl, rfl, rfl, rfl, rfl, rfl⟩

/-- Witness for C2: in a one-row store holding notebook 1 reserved by
volunteer 7 and not yet evaluated, evaluating it with volunteer 7's payload
at time 9 stamps the row and returns it refreshed. -/
theorem evaluate_claim_conditional_update_witness :
    SequelizeNotebookRepository.saveNotebookEvaluation 1 (mkEval 7) 9
        [mkNotebook 1 (some 7) (some 5) none] =
      ([applyEvaluateNotebookModel
          (evaluateNotebookEntityToEvaluateNotebookModel (mkEval 7) 9)
          (mkNotebook 1 (some 7) (some 5) none)],
        some (notebookModelToEntity
          (applyEvaluateNotebookModel
            (evaluateNotebookEntityToEvaluateNotebookModel (mkEval 7) 9)
            (mkNotebook 1 (some 7) (some 5) none)))) := by
  have h := (evaluate_claim_conditional_update 1 9 (mkEval 7)
      [mkNotebook 1 (some 7) (some 5) none]).2.2.1
    (by decide) (mkNotebook 1 (some 7) (some 5) none) (by simp) rfl rfl
  simpa using h

/-- C5: once a notebook's `'Carimbo de data/hora'` (evaluatedAt) is
non-null, both repository operations on it are Rejected (`null`) and leave
the whole store — in particular every field of that notebook — unchanged:
EVALUATED is terminal. -/
theorem evaluated_terminal (s : Store) (r : Notebook) (t : Nat)
    (hnd : (s.map Notebook.idcad).Nodup) (hr : r ∈ s)
    (hc : r.carimboDeDataHora = some t) :
    ∀ (idvol now : Nat) (d : EvaluateNotebookEntity) (now2 : Nat),
      SequelizeNotebookRepository.reserveNotebookForVolunteer
          idvol r.idcad now s = (s, none) ∧
        SequelizeNotebookRepository.saveNotebookEvaluation
          r.idcad d now2 s = (s, none) := by
  intro idvol now d now2
  have huniq : ∀ x ∈ s, x.idcad = r.idcad → x = r := fun x hx hid =>
    List.inj_on_of_nodup_map hnd hx hr hid
  have hres : ∀ x ∈ s,
      SequelizeNotebookRepository.reservationWhere r.idcad x = false := by
    intro x hx
    by_cases hp : SequelizeNotebookRepository.reservationWhere r.idcad x = true
    · obtain ⟨hid, _, hcnone⟩ := (reservationWhere_iff r.idcad x).mp hp
      rw [huniq x hx hid] at hcnone
      rw [hc] at hcnone
      cases hcnone
    · simpa using hp
  have heva : ∀ x ∈ s,
      SequelizeNotebookRepository.evaluationWhere r.idcad x = false := by
    intro x hx
    by_cases hp : SequelizeNotebookRepository.evaluationWhere r.idcad x = true
    · obtain ⟨hid, hcnone⟩ := (evaluationWhere_iff r.idcad x).mp hp
      rw [huniq x hx hid] at hcnone
      rw [hc] at hcnone
      cases hcnone
    · simpa using hp
  constructor
  · exact condRepoResult_no_match hres
  · exact condRepoResult_no_match heva

/-- Witness for C5: with notebook 1 evaluated at time 9 (and reserved by
volunteer 7 at time 5), a later reservation attempt by volunteer 8 and a
later evaluation attempt by volunteer 8 both return Rejected and leave the
store unchanged. -/
theorem evaluated_terminal_witness :
    SequelizeNotebookRepository.reserveNotebookForVolunteer 8 1 11
        [mkNotebook 1 (some 7) (some 5) (some 9)] =
      ([mkNotebook 1 (some 7) (some 5) (some 9)], none) ∧
      SequelizeNotebookRepository.saveNotebookEvaluation 1 (mkEval 8) 12
          [mkNotebook 1 (some 7) (some 5) (some 9)] =
        ([mkNotebook 1 (some 7) (some 5) (some 9)], none) := by
  have h := evaluated_terminal [mkNotebook 1 (some 7) (some 5) (some 9)]
    (mkNotebook 1 (some 7) (some 5) (some 9)) 9 (by decide) (by simp) rfl
    8 11 (mkEval 8) 12
  simpa using h

/-- Per-row effect of one operation: both repository mutations are maps of
this row transformer over the store. -/
def rowStep (o : Op) (x : Notebook) : Notebook :=
  match o with
  | Op.reserve idvol notebookId now =>
    if SequelizeNotebookRepository.reservationWhere notebookId x then
      { x with idvol := some idvol, datareserva := some now }
    else x
  | Op.evaluate notebookId d now =>
    if SequelizeNotebookRepository.evaluationWhere notebookId x then
      applyEvaluateNotebookModel
        (evaluateNotebookEntityToEvaluateNotebookModel d now) x
    else x

/-- Each operation acts on the store as a map of its row transformer. -/
lemma applyOp_eq_map (o : Op) (s : Store) : applyOp o s = s.map (rowStep o) := by
  cases o <;> rfl

/-- A non-null `datareserva` survives any single operation's row
transformer unchanged. -/
lemma rowStep_datareserva (o : Op) (x : Notebook) (t : Nat)
    (h : x.datareserva = some t) : (rowStep o x).datareserva = some t := by
  cases o with
  | reserve idvol notebookId now =>
    simp only [rowStep]
    by_cases hp : SequelizeNotebookRepository.reservationWhere notebookId x = true
    · obtain ⟨_, hnull, _⟩ := (reservationWhere_iff notebookId x).mp hp
      rw [hnull] at h
      cases h
    · simp [hp, h]
  | evaluate notebookId d now =>
    simp only [rowStep]
    by_cases hp : SequelizeNotebookRepository.evaluationWhere notebookId x = true
    · simp [hp, applyEvaluateNotebookModel, h]
    · simp [hp, h]

/-- A non-null `idvol` stays non-null through any single operation's row
transformer (though an evaluation overwrites it with the payload's
volunteer). -/
lemma rowStep_idvol_ne_none (o : Op) (x : Notebook)
    (h : x.idvol ≠ none) : (rowStep o x).idvol ≠ none := by
  cases o with
  | reserve idvol notebookId now =>
    simp only [rowStep]
    by_cases hp : SequelizeNotebookRepository.reservationWhere notebookId x = true
    · simp [hp]
    · simp [hp, h]
  | evaluate notebookId d now =>
    simp only [rowStep]
    by_cases hp : SequelizeNotebookRepository.evaluationWhere notebookId x = true
    · simp [hp, applyEvaluateNotebookModel,
        evaluateNotebookEntityToEvaluateNotebookModel]
    · simp [hp, h]

/-- C3 (amended): through any sequence of claim/evaluate operations, a
non-null `datareserva` (reservedAt) is never cleared or changed and a
non-null `idvol` (reservedBy) is never cleared back to null; however a
successful evaluation overwrites `idvol` with the evaluation payload's
volunteer id, so reservedBy is reassigned whenever the payload names a
different volunteer. -/
theorem reservation_once_set_persists (ops : List Op) (s : Store) :
    ((runOps ops s).length = s.length) ∧
      (∀ (i : Nat) (h : i < s.length)
          (h2 : i < (runOps ops s).length) (t : Nat),
        (s[i].datareserva = some t →
          (runOps ops s)[i].datareserva = some t) ∧
        (s[i].idvol ≠ none → (runOps ops s)[i].idvol ≠ none)) ∧
      (∀ (d : EvaluateNotebookEntity) (now : Nat) (x : Notebook),
        (applyEvaluateNotebookModel
          (evaluateNotebookEntityToEvaluateNotebookModel d now) x).idvol =
          some d.idvol) := by
  induction ops generalizing s with
  | nil =>
    exact ⟨rfl, fun i h h2 t => ⟨fun hh => hh, fun hh => hh⟩,
      fun d now x => rfl⟩
  | cons o os ih =>
    have hlen1 : (applyOp o s).length = s.length := by
      rw [applyOp_eq_map]
      exact List.length_map s (rowStep o)
    obtain ⟨ihl, ihp, _⟩ := ih (applyOp o s)
    refine ⟨?_, ?_, fun d now x => rfl⟩
    · show (runOps os (applyOp o s)).length = s.length
      rw [ihl, hlen1]
    · intro i h h2 t
      have hi1 : i < (applyOp o s).length := by
        rw [hlen1]
        exact h
      have h2i : i < (runOps os (applyOp o s)).length := h2
      have hrow : (applyOp o s)[i] = rowStep o s[i] := by
        simp [applyOp_eq_map]
      constructor
      · intro hd
        apply ((ihp i hi1 h2i t).1)
        rw [hrow]
        exact rowStep_datareserva o s[i] t hd
      · intro hv
        apply ((ihp i hi1 h2i t).2)
        rw [hrow]
        exact rowStep_idvol_ne_none o s[i] hv

/-- Counterexample for C3 as stated: notebook 1 is claimed by volunteer 1,
then evaluated with a payload naming volunteer 2; the evaluation succeeds
and reassigns `idvol` from `some 1` to `some 2`, so reservedBy after the
evaluate differs from reservedBy before it. -/
theorem reservedBy_reassigned_counterexample :
    ((runOps [Op.reserve 1 1 0] [mkNotebook 1 none none none]).map
        Notebook.idvol = [some 1]) ∧
      ((runOps [Op.reserve 1 1 0, Op.evaluate 1 (mkEval 2) 3]
          [mkNotebook 1 none none none]).map Notebook.idvol = [some 2]) ∧
      ((some 2 : Option Nat) ≠ some 1) := by
  exact ⟨rfl, rfl, by decide⟩

/-- Witness for the amended C3: a notebook reserved at time 5 still carries
`datareserva = some 5` after a later evaluation operation. -/
theorem reservation_once_set_persists_witness :
    ((runOps [Op.evaluate 1 (mkEval 2) 3]
        [mkNotebook 1 (some 7) (some 5) none]).get
      ⟨0, by decide⟩).datareserva = some 5 := by
  have h := ((reservation_once_set_persists [Op.evaluate 1 (mkEval 2) 3]
      [mkNotebook 1 (some 7) (some 5) none]).2.1 0 (by decide) (by decide)
      5).1 rfl
  exact h

/-- Looking a notebook up by id in a store with unique ids finds exactly
the row carrying that id. -/
lemma find?_idcad_of_nodup {r : Notebook} {nid : Nat} :
    ∀ (s : Store), (s.map Notebook.idcad).Nodup → r ∈ s → r.idcad = nid →
      (s.find? fun x => x.idcad == nid) = some r := by
  intro s
  induction s with
  | nil =>
    intro _ hr
    cases hr
  | cons a t ih =>
    intro hnd hr hid
    rw [List.map_cons] at hnd
    have hnd' := List.nodup_cons.mp hnd
    rcases List.mem_cons.mp hr with rfl | hrt
    · apply List.find?_cons_of_pos
      simp [hid]
    · have hanid : a.idcad ≠ nid := by
        intro heq
        apply hnd'.1
        have hmem : r.idcad ∈ t.map Notebook.idcad :=
          List.mem_map_of_mem Notebook.idcad hrt
        rwa [hid, ← heq] at hmem
      rw [List.find?_cons_of_neg]
      · exact ih hnd'.2 hrt hid
      · simp [hanid]

/-- C4 (amended): the evaluation where-clause does not require a prior
reservation — for any row with null evaluatedAt, even one whose
`datareserva` (reservedAt) is still null, the service-level evaluation
succeeds: it stamps `'Carimbo de data/hora' := now`, sets `idvol` to the
payload's volunteer, and leaves `datareserva` exactly as it was (possibly
null).  A notebook can therefore move from AVAILABLE directly to
EVALUATED. -/
theorem evaluate_succeeds_without_reservation (nid now : Nat)
    (d : EvaluateNotebookEntity) (s : Store) (r : Notebook)
    (hnd : (s.map Notebook.idcad).Nodup) (hr : r ∈ s) (hid : r.idcad = nid)
    (hc : r.carimboDeDataHora = none) :
    NotebookAPI.saveNotebookEvaluation nid d now s =
      (s.map fun x =>
          if x = r then
            applyEvaluateNotebookModel
              (evaluateNotebookEntityToEvaluateNotebookModel d now) r
          else x,
        EvaluateOutcome.ok (notebookModelToEntity
          (applyEvaluateNotebookModel
            (evaluateNotebookEntityToEvaluateNotebookModel d now) r))) ∧
      (applyEvaluateNotebookModel
        (evaluateNotebookEntityToEvaluateNotebookModel d now)
        r).carimboDeDataHora = some now ∧
      (applyEvaluateNotebookModel
        (evaluateNotebookEntityToEvaluateNotebookModel d now) r).idvol =
        some d.idvol ∧
      (applyEvaluateNotebookModel
        (evaluateNotebookEntityToEvaluateNotebookModel d now)
        r).datareserva = r.datareserva := by
  have hfid : ∀ x : Notebook,
      (applyEvaluateNotebookModel
        (evaluateNotebookEntityToEvaluateNotebookModel d now) x).idcad =
        x.idcad := fun x => rfl
  have hpid : ∀ x : Notebook,
      SequelizeNotebookRepository.evaluationWhere nid x = true →
        x.idcad = nid :=
    fun x hx => ((evaluationWhere_iff nid x).mp hx).1
  have hget : SequelizeNotebookRepository.getNotebookById nid s =
      some (notebookModelToEntity r) := by
    simp [SequelizeNotebookRepository.getNotebookById,
      find?_idcad_of_nodup s hnd hr hid]
  have hdef :
      SequelizeNotebookRepository.saveNotebookEvaluation nid d now s =
        condRepoResult
          (applyEvaluateNotebookModel
            (evaluateNotebookEntityToEvaluateNotebookModel d now))
          (SequelizeNotebookRepository.evaluationWhere nid) nid s := rfl
  have hrepo := hdef.trans (condRepoResult_success hfid hpid hnd hr
    ((evaluationWhere_iff nid r).mpr ⟨hid, hc⟩))
  refine ⟨?_, rfl, rfl, rfl⟩
  simp only [NotebookAPI.saveNotebookEvaluation, hget, hrepo]

/-- Counterexample for C4 as stated: evaluating the never-reserved
notebook 1 with volunteer 2's payload at time 3 succeeds at the service
level, leaving a row whose evaluatedAt is `some 3` while reservedAt is
still null — the AVAILABLE → EVALUATED skip the claim rules out. -/
theorem evaluate_skip_counterexample :
    NotebookAPI.saveNotebookEvaluation 1 (mkEval 2) 3
        [mkNotebook 1 none none none] =
      ([applyEvaluateNotebookModel
          (evaluateNotebookEntityToEvaluateNotebookModel (mkEval 2) 3)
          (mkNotebook 1 none none none)],
        EvaluateOutcome.ok (notebookModelToEntity
          (applyEvaluateNotebookModel
            (evaluateNotebookEntityToEvaluateNotebookModel (mkEval 2) 3)
            (mkNotebook 1 none none none)))) ∧
      (applyEvaluateNotebookModel
        (evaluateNotebookEntityToEvaluateNotebookModel (mkEval 2) 3)
        (mkNotebook 1 none none none)).carimboDeDataHora = some 3 ∧
      (applyEvaluateNotebookModel
        (evaluateNotebookEntityToEvaluateNotebookModel (mkEval 2) 3)
        (mkNotebook 1 none none none)).datareserva = none := by
  exact ⟨rfl, rfl, rfl⟩

/-- Witness for the amended C4 at a concrete input: the unreserved
notebook 1 is evaluated successfully. -/
theorem evaluate_succeeds_without_reservation_witness :
    NotebookAPI.saveNotebookEvaluation 1 (mkEval 9) 4
        [mkNotebook 1 none none none] =
      ([applyEvaluateNotebookModel
          (evaluateNotebookEntityToEvaluateNotebookModel (mkEval 9) 4)
          (mkNotebook 1 none none none)],
        EvaluateOutcome.ok (notebookModelToEntity
          (applyEvaluateNotebookModel
            (evaluateNotebookEntityToEvaluateNotebookModel (mkEval 9) 4)
            (mkNotebook 1 none none none)))) := by
  have h := (evaluate_succeeds_without_reservation 1 4 (mkEval 9)
      [mkNotebook 1 none none none] (mkNotebook 1 none none none)
      (by decide) (by simp) rfl rfl).1
  simpa using h

/-- C6 (evaluating the code at the failing input): volunteer 7 successfully
claims the available notebook 1, yet `getReservedNotebooksByIdVol 7` on the
resulting store returns the empty list — the claimed, not-yet-evaluated
notebook never appears because the query's where-clause also requires
`datareserva: null`, which a successful claim has just made non-null. -/
theorem reserved_list_omits_claimed_notebook :
    (SequelizeNotebookRepository.reserveNotebookForVolunteer 7 1 0
        [mkNotebook 1 none none none]).2 ≠ none ∧
      SequelizeNotebookRepository.getReservedNotebooksByIdVol 7
        (SequelizeNotebookRepository.reserveNotebookForVolunteer 7 1 0
          [mkNotebook 1 none none none]).1 = [] := by
  exact ⟨by decide, rfl⟩

/-- C7: `getAvailableNotebooks` only ever returns entities whose
reservation and evaluation dates are null, and `getReservedNotebooksByIdVol
v` only ever returns entities whose `idvol` is exactly `v` — never a
different volunteer's notebook. -/
theorem availability_queries_sound (v : Nat) (s : Store)
    (e : NotebookEntity) :
    (e ∈ SequelizeNotebookRepository.getAvailableNotebooks s →
      e.reservationDate = none ∧ e.evaluatedDate = none) ∧
      (e ∈ SequelizeNotebookRepository.getReservedNotebooksByIdVol v s →
        e.idvol = some v) := by
  constructor
  · intro hmem
    simp only [SequelizeNotebookRepository.getAvailableNotebooks,
      List.mem_map, List.mem_filter, Bool.and_eq_true, beq_iff_eq] at hmem
    obtain ⟨r, ⟨hrs, hpred⟩, rfl⟩ := hmem
    exact ⟨hpred.1, hpred.2⟩
  · intro hmem
    simp only [SequelizeNotebookRepository.getReservedNotebooksByIdVol,
      List.mem_map, List.mem_filter, Bool.and_eq_true, beq_iff_eq] at hmem
    obtain ⟨r, ⟨hrs, hpred⟩, rfl⟩ := hmem
    exact hpred.1.1

/-- Witness for C7: the available notebook 1 is listed by
`getAvailableNotebooks` and indeed carries null reservation and evaluation
dates. -/
theorem availability_queries_sound_witness :
    (notebookModelToEntity (mkNotebook 1 none none none)).reservationDate =
        none ∧
      (notebookModelToEntity (mkNotebook 1 none none none)).evaluatedDate =
        none := by
  exact (availability_queries_sound 7 [mkNotebook 1 none none none]
    (notebookModelToEntity (mkNotebook 1 none none none))).1 (by decide)

/-- C8: the service-level reservation checks the volunteer first (412
VolunteerNotFound), then the notebook (404 NotebookNotFound), then
delegates to the repository's conditional claim; a repository Rejected
(`null`) surfaces as the AlreadyReservedOrEvaluated error result, and a
successful claim returns the reserved notebook (through the presentation
formatter). -/
theorem reserve_service_cascade (v nid now : Nat) (vols : List Nat)
    (s : Store) :
    (getVolunteerById v vols = none →
      NotebookAPI.reserveNotebookForVolunteer v nid now vols s =
        (s, ReserveOutcome.volunteerNotFound)) ∧
      (getVolunteerById v vols ≠ none →
        SequelizeNotebookRepository.getNotebookById nid s = none →
        NotebookAPI.reserveNotebookForVolunteer v nid now vols s =
          (s, ReserveOutcome.notebookNotFound)) ∧
      (getVolunteerById v vols ≠ none →
        SequelizeNotebookRepository.getNotebookById nid s ≠ none →
        ((SequelizeNotebookRepository.reserveNotebookForVolunteer
              v nid now s).2 = none →
          NotebookAPI.reserveNotebookForVolunteer v nid now vols s =
            ((SequelizeNotebookRepository.reserveNotebookForVolunteer
                v nid now s).1,
              ReserveOutcome.alreadyReservedOrEvaluated)) ∧
        (∀ e, (SequelizeNotebookRepository.reserveNotebookForVolunteer
              v nid now s).2 = some e →
          NotebookAPI.reserveNotebookForVolunteer v nid now vols s =
            ((SequelizeNotebookRepository.reserveNotebookForVolunteer
                v nid now s).1,
              ReserveOutcome.ok (formatAvailableNotebookToTableRow e)))) := by
  refine ⟨?_, ?_, ?_⟩
  · intro h
    simp [NotebookAPI.reserveNotebookForVolunteer, h]
  · intro h1 h2
    obtain ⟨x, hx⟩ := Option.ne_none_iff_exists'.mp h1
    simp [NotebookAPI.reserveNotebookForVolunteer, hx, h2]
  · intro h1 h2
    obtain ⟨x, hx⟩ := Option.ne_none_iff_exists'.mp h1
    obtain ⟨y, hy⟩ := Option.ne_none_iff_exists'.mp h2
    constructor
    · intro hnone
      simp [NotebookAPI.reserveNotebookForVolunteer, hx, hy, hnone]
    · intro e he
      simp [NotebookAPI.reserveNotebookForVolunteer, hx, hy, he]

/-- Witness for C8: with an empty volunteers table, reserving fails with
VolunteerNotFound and the store is untouched. -/
theorem reserve_service_cascade_witness :
    NotebookAPI.reserveNotebookForVolunteer 7 1 0 []
        [mkNotebook 1 none none none] =
      ([mkNotebook 1 none none none], ReserveOutcome.volunteerNotFound) := by
  exact (reserve_service_cascade 7 1 0 [] [mkNotebook 1 none none none]).1 rfl

/-- C9 (amended): `getAvailableNotebooksForEvalForIdVol` returns exactly
the formatted `getReservedNotebooksByIdVol v` rows followed by the
formatted `getAvailableNotebooks` rows; since the reserved-list query also
demands `datareserva: null`, every row it returns is also returned by the
availability query, so the result's members are exactly the formatted rows
with null `datareserva` and null `'Carimbo de data/hora'` — and a row
matching both queries appears twice. -/
theorem listAccessible_reserved_then_available (v : Nat) (s : Store) :
    NotebookAPI.getAvailableNotebooksForEvalForIdVol v s =
      (SequelizeNotebookRepository.getReservedNotebooksByIdVol v s).map
          formatAvailableNotebookToTableRow ++
        (SequelizeNotebookRepository.getAvailableNotebooks s).map
          formatAvailableNotebookToTableRow ∧
      ∀ e, e ∈ NotebookAPI.getAvailableNotebooksForEvalForIdVol v s ↔
        ∃ r ∈ s, r.datareserva = none ∧ r.carimboDeDataHora = none ∧
          e = formatAvailableNotebookToTableRow (notebookModelToEntity r) := by
  constructor
  · simp [NotebookAPI.getAvailableNotebooksForEvalForIdVol]
  · intro e
    simp only [NotebookAPI.getAvailableNotebooksForEvalForIdVol,
      SequelizeNotebookRepository.getReservedNotebooksByIdVol,
      SequelizeNotebookRepository.getAvailableNotebooks, List.map_map,
      List.map_append, List.mem_append, List.mem_map, List.mem_filter,
      Bool.and_eq_true, beq_iff_eq, Function.comp]
    constructor
    · rintro (⟨r, ⟨hrs, ⟨_, hc⟩, hd⟩, rfl⟩ | ⟨r, ⟨hrs, hd, hc⟩, rfl⟩)
      · exact ⟨r, hrs, hd, hc, rfl⟩
      · exact ⟨r, hrs, hd, hc, rfl⟩
    · rintro ⟨r, hrs, hd, hc, rfl⟩
      exact Or.inr ⟨r, ⟨hrs, hd, hc⟩, rfl⟩

/-- Counterexample for C9 as stated: on a store holding one row with
`idvol = some 5` but null `datareserva` and null evaluation stamp, the
volunteer-5 listing returns that notebook twice — once from the
reserved-list query and once from the availability query. -/
theorem listAccessible_duplicate_counterexample :
    NotebookAPI.getAvailableNotebooksForEvalForIdVol 5
        [mkNotebook 1 (some 5) none none] =
      [formatAvailableNotebookToTableRow
          (notebookModelToEntity (mkNotebook 1 (some 5) none none)),
        formatAvailableNotebookToTableRow
          (notebookModelToEntity (mkNotebook 1 (some 5) none none))] ∧
      ¬(NotebookAPI.getAvailableNotebooksForEvalForIdVol 5
          [mkNotebook 1 (some 5) none none]).Nodup := by
  exact ⟨rfl, by decide⟩

/-- Witness for the amended C9: on a one-row available store, the listing
is the reserved-then-available concatenation, and the available notebook 2
is a member. -/
theorem listAccessible_reserved_then_available_witness :
    NotebookAPI.getAvailableNotebooksForEvalForIdVol 3
        [mkNotebook 2 none none none] =
      (SequelizeNotebookRepository.getReservedNotebooksByIdVol 3
          [mkNotebook 2 none none none]).map
          formatAvailableNotebookToTableRow ++
        (SequelizeNotebookRepository.getAvailableNotebooks
          [mkNotebook 2 none none none]).map
          formatAvailableNotebookToTableRow ∧
      notebookModelToEntity (mkNotebook 2 none none none) ∈
        NotebookAPI.getAvailableNotebooksForEvalForIdVol 3
          [mkNotebook 2 none none none] := by
  refine ⟨(listAccessible_reserved_then_available 3
    [mkNotebook 2 none none none]).1, ?_⟩
  exact ((listAccessible_reserved_then_available 3
      [mkNotebook 2 none none none]).2
    (notebookModelToEntity (mkNotebook 2 none none none))).mpr
    ⟨mkNotebook 2 none none none, by simp, rfl, rfl, rfl⟩

/-- C10: the `archivesExclusion` flag round-trips through storage — the
update record stores `'SIM'` exactly when the submitted flag is true and
`'NÃO'` when it is false, reading a row back decodes the flag as equality
with `'SIM'`, and reading back an evaluated row yields exactly the boolean
that was submitted. -/
theorem archivesExclusion_roundtrip (e : EvaluateNotebookEntity)
    (now : Nat) (r : Notebook) :
    ((evaluateNotebookEntityToEvaluateNotebookModel e
          now).exclusaoDeArquivosRecebidos = "SIM" ↔
        e.archivesExclusion = true) ∧
      (e.archivesExclusion = false →
        (evaluateNotebookEntityToEvaluateNotebookModel e
          now).exclusaoDeArquivosRecebidos = "NÃO") ∧
      ((notebookModelToEntity r).archivesExclusion =
        (r.exclusaoDeArquivosRecebidos == "SIM")) ∧
      ((notebookModelToEntity
          (applyEvaluateNotebookModel
            (evaluateNotebookEntityToEvaluateNotebookModel e now)
            r)).archivesExclusion = e.archivesExclusion) := by
  have hx : (evaluateNotebookEntityToEvaluateNotebookModel e
      now).exclusaoDeArquivosRecebidos =
      if e.archivesExclusion then "SIM" else "NÃO" := rfl
  refine ⟨?_, ?_, rfl, ?_⟩
  · rw [hx]
    cases h : e.archivesExclusion
    · decide
    · decide
  · intro h
    rw [hx, h]
    decide
  · cases h : e.archivesExclusion <;>
      simp [notebookModelToEntity, applyEvaluateNotebookModel,
        evaluateNotebookEntityToEvaluateNotebookModel, h]

/-- Witness for C10: a payload with the exclusion flag off is stored as
`'NÃO'`. -/
theorem archivesExclusion_roundtrip_witness :
    (evaluateNotebookEntityToEvaluateNotebookModel (mkEval 7)
      2).exclusaoDeArquivosRecebidos = "NÃO" := by
  exact (archivesExclusion_roundtrip (mkEval 7) 2
    (mkNotebook 1 none none none)).2.1 rfl
